import Mathlib

/-!
Shallow embedding of the linux-hotspot-enabler core (hotspot.c, net_utils.c)
and proofs about it.  C strings are modelled as `List Char`; C `int` as `Int`;
external effects (daemon launches, shell commands, the process table) are
modelled as explicit oracle inputs, and the sequence of signals that the code
emits is returned as an explicit event list.
-/

namespace HotspotModel

/-- Mirrors C `strncmp`-style question: is `n` an initial segment of `h`? -/
def leadsWith : List Char → List Char → Bool
  | [], _ => true
  | _ :: _, [] => false
  | a :: as, b :: bs => a == b && leadsWith as bs

/-- Mirrors C `strstr(h, n) != NULL`: does `h` contain `n` as a contiguous run? -/
def strContains (h n : List Char) : Bool :=
  match h with
  | [] => leadsWith n []
  | _ :: t => leadsWith n h || strContains t n

/-- The character for a decimal digit value. -/
def digitChar (n : Nat) : Char :=
  Char.ofNat ('0'.toNat + n)

/-- Fuel-driven decimal rendering (structural, so it evaluates in the
kernel); `fuel > n` suffices. -/
def natDecAux (fuel n : Nat) : List Char :=
  match fuel with
  | 0 => []
  | fuel + 1 =>
    if n < 10 then [digitChar n]
    else natDecAux fuel (n / 10) ++ [digitChar (n % 10)]

/-- Decimal rendering of a natural number, matching `printf %u`. -/
def natDec (n : Nat) : List Char :=
  natDecAux (n + 1) n

/-- Decimal rendering of an integer, matching `printf %d`. -/
def intDec (z : Int) : List Char :=
  if z < 0 then '-' :: natDec z.natAbs else natDec z.natAbs

/-- C `isspace` on the characters that matter here. -/
def isSpaceC (c : Char) : Bool :=
  c = ' ' || c = '\t' || c = '\n' || c = '\r' || c = '\x0b' || c = '\x0c'

/-- C `isdigit`. -/
def isDigitC (c : Char) : Bool :=
  '0' ≤ c && c ≤ '9'

/-- Value of a digit string read most-significant first. -/
def digitsVal (l : List Char) : Nat :=
  l.foldl (fun a c => a * 10 + (c.toNat - '0'.toNat)) 0

/-- The value of the leading digit run of a string. -/
def leadingDigitsVal (l : List Char) : Nat :=
  digitsVal (l.takeWhile isDigitC)

/-- Mirrors C `atoi`: skip whitespace, optional sign, then leading digits
(0 when there are none).  Overflow is not modelled; the values involved are
small. -/
def atoi (l : List Char) : Int :=
  match l.dropWhile isSpaceC with
  | [] => 0
  | c :: rest =>
    if c = '-' then -(leadingDigitsVal rest : Int)
    else if c = '+' then (leadingDigitsVal rest : Int)
    else (leadingDigitsVal (c :: rest) : Int)

/-! ## Band resolution and hostapd configuration (hotspot.c) -/

/-- Mirrors `is_5ghz_channel` in hotspot.c: channels 32 and above are 5 GHz. -/
def is_5ghz_channel (ch : Int) : Bool :=
  decide (32 ≤ ch)

/-- The channel written into the hostapd configuration, mirroring the start of
`generate_hostapd_conf`: `config.channel` if nonzero, else the client
channel of the client interface, else the safe fallback 6. -/
def resolve_channel (cfgCh wifiCh : Int) : Int :=
  if cfgCh == 0 then (if wifiCh ≤ 0 then 6 else wifiCh) else cfgCh

/-- The fields of the generated hostapd configuration that depend on the
negotiation state (`generate_hostapd_conf` in hotspot.c). -/
structure HostapdConf where
  channel : Int
  hwMode : List Char
  wmmEnabled : Bool
  ieee80211n : Bool
  ieee80211ac : Bool
  ssid : List Char
  hiddenFlag : Bool
  passphrase : List Char
  deriving DecidableEq

/-- Mirrors `generate_hostapd_conf` in hotspot.c as a value-level writer:
resolves the channel, derives the band from it, and emits the 802.11n/ac
lines only when not in minimal fallback mode. -/
def generate_hostapd_conf (cfgCh wifiCh : Int) (ssid pass : List Char)
    (hidden minimal : Bool) : HostapdConf :=
  let channel := resolve_channel cfgCh wifiCh
  let use5 := is_5ghz_channel channel
  { channel := channel
    hwMode := if use5 then "a".data else "g".data
    wmmEnabled := use5
    ieee80211n := !minimal
    ieee80211ac := !minimal && use5
    ssid := ssid
    hiddenFlag := hidden
    passphrase := pass }

/-! ## The hostapd negotiation (`start_hostapd`, `try_hostapd_once`) -/

/-- The observable outcome of one `try_hostapd_once` call: whether hostapd was
left running (launch succeeded and a live pid was found after the settle
delay), and, if not, the failure text captured back from the hostapd log. -/
structure TryResult where
  ok : Bool
  log : List Char

/-- Which of the negotiation phases produced an attempt. -/
inductive Phase
  | p1full
  | p2min
  | p3full
  | p3min
  deriving DecidableEq

/-- One hostapd launch attempt: the phase it belongs to and the configuration
that was generated for it. -/
structure Attempt where
  phase : Phase
  conf : HostapdConf
  deriving DecidableEq

/-- The result of the whole negotiation: success flag, the value of
`status.config.channel` when `start_hostapd` returns, the attempts made in
order, and the error message composed on failure (empty on success). -/
structure HostapdRun where
  ok : Bool
  cfgChannelAfter : Int
  attempts : List Attempt
  errorMsg : List Char

/-- The daemon message whose presence in the failure log marks a
channel/hw-mode rejection ("Could not select hw_mode and channel"). -/
def rejectNeedle : List Char := "Could not select".data

/-- Newline collapsing applied to the failure log before it is embedded in the
error message (the `for (p = log_output; *p; p++)` loop). -/
def collapseNl (l : List Char) : List Char :=
  l.map (fun c => if c = '\n' then ' ' else c)

/-- The error message composed when every attempt failed, mirroring the tail
of `start_hostapd` (`%.400s` caps the collapsed log at 400 characters). -/
def hostapdFailMsg (channelRejected is5 : Bool) (clientCh : Int)
    (lastLog : List Char) : List Char :=
  if channelRejected && is5 then
    ("AP not supported on 5GHz (ch ".data ++ intDec clientCh
      ++ ") or 2.4GHz by this driver. Try connecting to a 2.4GHz WiFi network first.".data)
  else
    "hostapd failed: ".data ++ (collapseNl lastLog).take 400

/-- Phase 3 of `start_hostapd`: entered with the channel-rejection verdict and
the last failure log; when the verdict holds and the client channel is 5 GHz,
the config channel is overridden to 6 for a full and a minimal attempt, and
the original channel is restored on every exit. `idx` is the number of
attempts already consumed from the oracle. -/
def hostapdPhase3 (env : Nat → TryResult) (idx : Nat) (cfgCh wifiCh : Int)
    (ssid pass : List Char) (hidden : Bool) (rejected : Bool)
    (lastLog : List Char) (acc : List Attempt) : HostapdRun :=
  let is5 := is_5ghz_channel wifiCh
  if rejected && is5 then
    let c3 := generate_hostapd_conf 6 wifiCh ssid pass hidden false
    let r3 := env idx
    if r3.ok then
      { ok := true, cfgChannelAfter := cfgCh
        attempts := acc ++ [⟨Phase.p3full, c3⟩], errorMsg := [] }
    else
      let c4 := generate_hostapd_conf 6 wifiCh ssid pass hidden true
      let r4 := env (idx + 1)
      if r4.ok then
        { ok := true, cfgChannelAfter := cfgCh
          attempts := acc ++ [⟨Phase.p3full, c3⟩, ⟨Phase.p3min, c4⟩], errorMsg := [] }
      else
        { ok := false, cfgChannelAfter := cfgCh
          attempts := acc ++ [⟨Phase.p3full, c3⟩, ⟨Phase.p3min, c4⟩]
          errorMsg := hostapdFailMsg rejected is5 wifiCh r4.log }
  else
    { ok := false, cfgChannelAfter := cfgCh, attempts := acc
      errorMsg := hostapdFailMsg rejected is5 wifiCh lastLog }

/-- Mirrors `start_hostapd` in hotspot.c.  `env n` is the outcome of the
`n`-th `try_hostapd_once` call; `cfgCh` is `status.config.channel` on entry
and `wifiCh` is `status.wifi.channel`.  Phase 1 launches the full-feature
configuration on the resolved channel; Phase 2 repeats with the minimal
configuration unless the Phase 1 log showed a channel rejection; Phase 3 is
the 2.4 GHz fallback. -/
def start_hostapd (env : Nat → TryResult) (cfgCh wifiCh : Int)
    (ssid pass : List Char) (hidden : Bool) : HostapdRun :=
  let c1 := generate_hostapd_conf cfgCh wifiCh ssid pass hidden false
  let r1 := env 0
  if r1.ok then
    { ok := true, cfgChannelAfter := cfgCh
      attempts := [⟨Phase.p1full, c1⟩], errorMsg := [] }
  else
    let rej1 := strContains r1.log rejectNeedle
    if rej1 then
      hostapdPhase3 env 1 cfgCh wifiCh ssid pass hidden true r1.log
        [⟨Phase.p1full, c1⟩]
    else
      let c2 := generate_hostapd_conf cfgCh wifiCh ssid pass hidden true
      let r2 := env 1
      if r2.ok then
        { ok := true, cfgChannelAfter := cfgCh
          attempts := [⟨Phase.p1full, c1⟩, ⟨Phase.p2min, c2⟩], errorMsg := [] }
      else
        let rej2 := strContains r2.log rejectNeedle
        hostapdPhase3 env 2 cfgCh wifiCh ssid pass hidden rej2 r2.log
          [⟨Phase.p1full, c1⟩, ⟨Phase.p2min, c2⟩]

/-- Did the run enter the Phase 3 fallback (an attempt tagged `p3full`)? -/
def phase3Attempted (r : HostapdRun) : Bool :=
  r.attempts.any (fun a => a.phase == Phase.p3full)

/-- The value of the `channel_rejected` flag at the Phase 3 decision point, as
computed by `start_hostapd`: the Phase 1 failure log is consulted first, and
the Phase 2 failure log only when Phase 2 actually ran and failed. -/
def channelRejectionDetected (env : Nat → TryResult) : Bool :=
  if (env 0).ok then false
  else if strContains (env 0).log rejectNeedle then true
  else if (env 1).ok then false
  else strContains (env 1).log rejectNeedle

/-! ## NAT / forwarding (`setup_nat`, `remove_nat`) and the lifecycle state -/

/-- The system-wide state the NAT manager touches: the kernel IP-forwarding
flag and the three iptables rules. -/
structure NatSys where
  ip_forward : Bool
  masquerade : Bool
  fwdEstablished : Bool
  fwdApAccept : Bool
  deriving DecidableEq

/-- The state tag of the orchestrator (`HotspotState` in hotspot.h). -/
inductive HState
  | stopped
  | starting
  | running
  | error
  | stopping
  deriving DecidableEq

/-- The fields of `HotspotStatus` (hotspot.h) that the modelled operations
read or write. -/
structure HotspotStatus where
  state : HState
  cfgSsid : List Char
  cfgPassword : List Char
  cfgChannel : Int
  cfgMaxClients : Int
  cfgHidden : Bool
  wifiChannel : Int
  error_msg : List Char
  hostapd_pid : Int
  dnsmasq_pid : Int
  ip_forward_was_enabled : Bool
  client_count : Int
  start_time : Int
  deriving DecidableEq

/-- Mirrors `hotspot_init` composed with `hotspot_default_config`: a zeroed status in
state Stopped with the default configuration. -/
def hotspot_init : HotspotStatus :=
  { state := HState.stopped
    cfgSsid := "LinuxHotspot".data
    cfgPassword := "password123".data
    cfgChannel := 0
    cfgMaxClients := 10
    cfgHidden := false
    wifiChannel := 0
    error_msg := []
    hostapd_pid := 0
    dnsmasq_pid := 0
    ip_forward_was_enabled := false
    client_count := 0
    start_time := 0 }

/-- Mirrors `setup_nat`: records the current forwarding flag into
`ip_forward_was_enabled` first, then force-enables forwarding and installs
the masquerade rule and the two FORWARD rules.  The C function always
returns true; the Bool is that return value. -/
def setup_nat (sys : NatSys) (st : HotspotStatus) : NatSys × HotspotStatus × Bool :=
  let st' := { st with ip_forward_was_enabled := sys.ip_forward }
  let sys' := { sys with
    ip_forward := true, masquerade := true
    fwdEstablished := true, fwdApAccept := true }
  (sys', st', true)

/-- Mirrors `remove_nat`: deletes the three rules and turns forwarding off
only when the recorded pre-run value was disabled. -/
def remove_nat (sys : NatSys) (st : HotspotStatus) : NatSys :=
  let sys' := { sys with
    masquerade := false, fwdEstablished := false, fwdApAccept := false }
  if st.ip_forward_was_enabled then sys' else { sys' with ip_forward := false }

/-! ## Signals, `kill_process`, cleanup and stop -/

/-- A signal-emitting action performed by the teardown code. -/
inductive SigEvent
  | sigterm (pid : Int)
  | sigkill (pid : Int)
  | pkillByName (pname : List Char)
  | pkillPattern (pat : List Char)
  deriving DecidableEq

/-- Mirrors `kill_process` in hotspot.c, returning the signals it emits.
`termDelivered` is whether `kill(pid, SIGTERM)` returned 0 (a live target
received the signal); `diesInPoll` is whether the target exited within the
3-second poll, in which case the SIGKILL escalation is skipped.  A pid ≤ 0
returns immediately; the pkill-by-name backstop runs only for a nonempty
name. -/
def kill_process (pid : Int) (pname : List Char) (termDelivered diesInPoll : Bool) :
    List SigEvent :=
  if pid ≤ 0 then []
  else
    (if termDelivered then
      SigEvent.sigterm pid :: (if diesInPoll then [] else [SigEvent.sigkill pid])
    else []) ++
    (if pname.isEmpty then [] else [SigEvent.pkillByName pname])

/-- Liveness outcomes for the two `kill_process` calls in `hotspot_cleanup`. -/
structure KillOracle where
  hostapdTermDelivered : Bool
  hostapdDies : Bool
  dnsmasqTermDelivered : Bool
  dnsmasqDies : Bool

/-- The constant `DNSMASQ_CONF_PATH` from hotspot.h. -/
def dnsmasqConfPath : List Char := "/tmp/hotspot_enabler_dnsmasq.conf".data

/-- What `hotspot_cleanup` leaves behind. -/
structure CleanupResult where
  status : HotspotStatus
  sys : NatSys
  events : List SigEvent

/-- Mirrors `hotspot_cleanup`: kill hostapd by recorded pid (with the
"hostapd" pkill backstop), kill dnsmasq by recorded pid (empty backstop
name), unconditionally pkill by the dnsmasq config path pattern, zero both
pids, remove the NAT rules via `remove_nat`, and reset the client count and
start time.  Interface/file removal has no claim-visible state here. -/
def hotspot_cleanup (st : HotspotStatus) (sys : NatSys) (k : KillOracle) :
    CleanupResult :=
  let ev1 := kill_process st.hostapd_pid "hostapd".data k.hostapdTermDelivered k.hostapdDies
  let ev2 := kill_process st.dnsmasq_pid [] k.dnsmasqTermDelivered k.dnsmasqDies
  let ev3 := [SigEvent.pkillPattern dnsmasqConfPath]
  let sys' := remove_nat sys st
  let st' := { st with
    hostapd_pid := 0, dnsmasq_pid := 0, client_count := 0, start_time := 0 }
  { status := st', sys := sys', events := ev1 ++ ev2 ++ ev3 }

/-- What `hotspot_stop` returns and leaves behind. -/
structure StopResult where
  ret : Bool
  status : HotspotStatus
  sys : NatSys
  events : List SigEvent

/-- Mirrors `hotspot_stop`: move to Stopping, run the full cleanup, move to
Stopped, return true. -/
def hotspot_stop (st : HotspotStatus) (sys : NatSys) (k : KillOracle) : StopResult :=
  let st1 := { st with state := HState.stopping }
  let c := hotspot_cleanup st1 sys k
  { ret := true
    status := { c.status with state := HState.stopped }
    sys := c.sys
    events := c.events }

/-- A live process, for deciding which processes a signal event reaches. -/
structure ProcEntry where
  pid : Int
  pname : List Char
  cmdline : List Char

/-- The pids a single signal event reaches: pid-directed signals reach their
pid; `pkill name` reaches processes of that name; `pkill -f pattern` reaches
processes whose command line contains the pattern. -/
def sigTargets (procs : List ProcEntry) : SigEvent → List Int
  | SigEvent.sigterm p => [p]
  | SigEvent.sigkill p => [p]
  | SigEvent.pkillByName n => (procs.filter (fun pr => pr.pname == n)).map ProcEntry.pid
  | SigEvent.pkillPattern pat =>
      (procs.filter (fun pr => strContains pr.cmdline pat)).map ProcEntry.pid

/-- All pids signaled by a list of events against a process table. -/
def signaledPids (procs : List ProcEntry) (evs : List SigEvent) : List Int :=
  evs.flatMap (sigTargets procs)

/-! ## `hotspot_start` -/

/-- The outcomes of the external steps `hotspot_start` performs, in order:
interface discovery (and the discovered client channel), phy resolution, AP
interface creation, the two config writes, the hostapd negotiation oracle,
the pid found for hostapd on success, the dnsmasq launch and its pid file
value, the kill oracle for any cleanup, and the clock. -/
structure StartEnv where
  detectOk : Bool
  detectedChannel : Int
  phyOk : Bool
  createOk : Bool
  genHostapdOk : Bool
  genDnsmasqOk : Bool
  hostapdTries : Nat → TryResult
  hostapdPid : Int
  dnsmasqLaunchOk : Bool
  dnsmasqPid : Int
  kill : KillOracle
  now : Int

/-- What `hotspot_start` returns and leaves behind.  `ranCleanup` records
whether the failure path invoked `hotspot_cleanup`. -/
structure StartResult where
  ret : Bool
  status : HotspotStatus
  sys : NatSys
  ranCleanup : Bool

/-- Error message of `create_ap_interface` when every candidate name fails. -/
def createFailMsg : List Char :=
  ("Failed to create virtual AP interface. All names (ap0-ap3) are in use "
    ++ "or your driver doesn\x27t support AP/STA concurrency.").data

/-- Mirrors `hotspot_start` in hotspot.c.  Failure paths before the AP
interface exists (discovery, phy resolution, creation) set state Error and
return without cleanup; later failures set state Error and run
`hotspot_cleanup`. -/
def hotspot_start (st0 : HotspotStatus) (sys : NatSys) (env : StartEnv) : StartResult :=
  let st := { st0 with state := HState.starting, error_msg := [] }
  if !env.detectOk then
    { ret := false, ranCleanup := false, sys := sys
      status := { st with error_msg := "No WiFi interface detected.".data
                          state := HState.error } }
  else
    let st := { st with wifiChannel := env.detectedChannel }
    if !env.phyOk then
      { ret := false, ranCleanup := false, sys := sys
        status := { st with error_msg := "Cannot determine physical WiFi device.".data
                            state := HState.error } }
    else if !env.createOk then
      { ret := false, ranCleanup := false, sys := sys
        status := { st with error_msg := createFailMsg, state := HState.error } }
    else if !env.genHostapdOk then
      let c := hotspot_cleanup
        { st with error_msg := "Failed to generate hostapd configuration.".data
                  state := HState.error } sys env.kill
      { ret := false, ranCleanup := true, sys := c.sys, status := c.status }
    else if !env.genDnsmasqOk then
      let c := hotspot_cleanup
        { st with error_msg := "Failed to generate dnsmasq configuration.".data
                  state := HState.error } sys env.kill
      { ret := false, ranCleanup := true, sys := c.sys, status := c.status }
    else
      let run := start_hostapd env.hostapdTries st.cfgChannel st.wifiChannel
        st.cfgSsid st.cfgPassword st.cfgHidden
      if !run.ok then
        let c := hotspot_cleanup
          { st with cfgChannel := run.cfgChannelAfter, error_msg := run.errorMsg
                    state := HState.error } sys env.kill
        { ret := false, ranCleanup := true, sys := c.sys, status := c.status }
      else
        let st := { st with cfgChannel := run.cfgChannelAfter
                            hostapd_pid := env.hostapdPid }
        if !env.dnsmasqLaunchOk then
          let c := hotspot_cleanup
            { st with error_msg := "Failed to start dnsmasq. Port 53 may be in use.".data
                      state := HState.error } sys env.kill
          { ret := false, ranCleanup := true, sys := c.sys, status := c.status }
        else
          let st := { st with dnsmasq_pid := env.dnsmasqPid }
          if env.dnsmasqPid ≤ 0 then
            let c := hotspot_cleanup { st with state := HState.error } sys env.kill
            { ret := false, ranCleanup := true, sys := c.sys, status := c.status }
          else
            let r := setup_nat sys st
            if !r.2.2 then
              let c := hotspot_cleanup
                { r.2.1 with error_msg := "Failed to configure NAT forwarding.".data
                             state := HState.error } r.1 env.kill
              { ret := false, ranCleanup := true, sys := c.sys, status := c.status }
            else
              { ret := true, ranCleanup := false, sys := r.1
                status := { r.2.1 with state := HState.running
                                       start_time := env.now, client_count := 0 } }

/-! ## Persisted configuration (`hotspot_save_config`, `hotspot_load_config`) -/

/-- The struct `HotspotConfig` from hotspot.h (the persisted fields). -/
structure HotspotConfig where
  ssid : List Char
  password : List Char
  channel : Int
  max_clients : Int
  hidden : Bool
  deriving DecidableEq

/-- Mirrors `hotspot_default_config` on the persisted fields. -/
def hotspot_default_config : HotspotConfig :=
  { ssid := "LinuxHotspot".data
    password := "password123".data
    channel := 0
    max_clients := 10
    hidden := false }

/-- Mirrors the body of `hotspot_save_config`: the lines written to the
config file (the atomic temp-file/rename mechanics carry no value-level
content). -/
def hotspot_save_config (c : HotspotConfig) : List (List Char) :=
  ["ssid=".data ++ c.ssid,
   "password=".data ++ c.password,
   "channel=".data ++ intDec c.channel,
   "max_clients=".data ++ intDec c.max_clients,
   "hidden=".data ++ (if c.hidden then "1".data else "0".data)]

/-- Mirrors `strchr(line, '=')` followed by splitting at the first match. -/
def splitEq : List Char → Option (List Char × List Char)
  | [] => none
  | c :: rest =>
    if c = '=' then some ([], rest)
    else
      match splitEq rest with
      | some (k, v) => some (c :: k, v)
      | none => none

/-- One iteration of the `hotspot_load_config` loop on a newline-stripped
line: comments, empty lines, lines without `=`, and unrecognized keys leave
the config untouched and do not count as applied; recognized keys overwrite
their field (string values truncated to MAX_SSID_LEN-1 = 63 by `strncpy`,
numeric values read with `atoi`). -/
def applyConfigLine (c : HotspotConfig) (line : List Char) : HotspotConfig × Bool :=
  match line with
  | [] => (c, false)
  | ch :: _ =>
    if ch = '#' then (c, false)
    else
      match splitEq line with
      | none => (c, false)
      | some (key, val) =>
        if key = "ssid".data then ({ c with ssid := val.take 63 }, true)
        else if key = "password".data then ({ c with password := val.take 63 }, true)
        else if key = "channel".data then ({ c with channel := atoi val }, true)
        else if key = "max_clients".data then ({ c with max_clients := atoi val }, true)
        else if key = "hidden".data then ({ c with hidden := decide (atoi val ≠ 0) }, true)
        else (c, false)

/-- Does a line carry a recognized `key=value` assignment? (This is the
`any` flag contribution of one line; it does not depend on the config.) -/
def recognizedLine (line : List Char) : Bool :=
  match line with
  | [] => false
  | ch :: _ =>
    if ch = '#' then false
    else
      match splitEq line with
      | none => false
      | some (key, _) =>
        key == "ssid".data || key == "password".data || key == "channel".data
          || key == "max_clients".data || key == "hidden".data

/-- Mirrors `hotspot_load_config`: `none` is a missing file (fopen failed);
otherwise every line is processed in order and the returned flag says
whether any recognized key was applied. -/
def hotspot_load_config (c : HotspotConfig) :
    Option (List (List Char)) → HotspotConfig × Bool
  | none => (c, false)
  | some lines =>
    lines.foldl
      (fun acc l =>
        let r := applyConfigLine acc.1 l
        (r.1, acc.2 || r.2))
      (c, false)

/-- The set of configs that the on-disk format can represent exactly:
string fields fit in their buffers and contain no newline. -/
def validConfig (c : HotspotConfig) : Prop :=
  c.ssid.length ≤ 63 ∧ c.password.length ≤ 63 ∧ '\n' ∉ c.ssid ∧ '\n' ∉ c.password

/-! ## AP/STA concurrency detection (`net_check_ap_support`, net_utils.c) -/

/-- Does one extracted capability block mention both "managed" and "AP"? -/
def blockBothCaps (b : List Char) : Bool :=
  strContains b "managed".data && strContains b "AP".data

/-- Mirrors `net_check_ap_support`: `combBlock` is the text grabbed after
"valid interface combinations:" and `modesBlock` the text grabbed after
"Supported interface modes:"; each nonempty block is tested on its own for
both "managed" and "AP", and the result is false if neither block has
both. -/
def net_check_ap_support (combBlock modesBlock : List Char) : Bool :=
  if !combBlock.isEmpty && blockBothCaps combBlock then true
  else if !modesBlock.isEmpty && blockBothCaps modesBlock then true
  else false

/-! ## Lease-file parsing (`net_get_connected_clients`, net_utils.c) -/

/-- One `%Ns` conversion of `sscanf`: skip whitespace; fail on end of input;
otherwise take at most `width` characters of the current non-whitespace run
and leave the rest (including the tail of an over-long run) unconsumed. -/
def readTok (width : Nat) (l : List Char) : Option (List Char × List Char) :=
  let l1 := l.dropWhile isSpaceC
  if l1.isEmpty then none
  else
    let run := l1.takeWhile (fun c => !isSpaceC c)
    let tok := run.take width
    some (tok, l1.drop tok.length)

/-- The result of `sscanf(line, "%31s %17s %45s %63s", ...)`: how many
conversions succeeded and the four buffers.  `junkHost` models the
uninitialized `hostname` buffer, which the code goes on to read when only
three conversions succeed. -/
structure Scan4 where
  count : Nat
  ts : List Char
  mac : List Char
  ip : List Char
  host : List Char

/-- The `sscanf` call of `net_get_connected_clients` on one lease line. -/
def sscanf4 (junkHost l : List Char) : Scan4 :=
  match readTok 31 l with
  | none => ⟨0, [], [], [], junkHost⟩
  | some (t1, r1) =>
    match readTok 17 r1 with
    | none => ⟨1, t1, [], [], junkHost⟩
    | some (t2, r2) =>
      match readTok 45 r2 with
      | none => ⟨2, t1, t2, [], junkHost⟩
      | some (t3, r3) =>
        match readTok 63 r3 with
        | none => ⟨3, t1, t2, t3, junkHost⟩
        | some (t4, _) => ⟨4, t1, t2, t3, t4⟩

/-- The struct `ConnectedClient` from net_utils.h (the fields the parser fills). -/
structure ConnectedClient where
  mac : List Char
  ip : List Char
  hostname : List Char
  deriving DecidableEq

/-- The C test `hostname[0] == \x27*\x27` (false on the empty string, whose
first byte is NUL). -/
def headIsStar : List Char → Bool
  | c :: _ => c == '*'
  | [] => false

/-- The loop body of `net_get_connected_clients` on one line: accept when at
least three conversions succeeded, copying with the `strncpy` caps and
replacing a hostname whose first character is the `*` sentinel with
"(unknown)". -/
def leaseLineClient (junkHost l : List Char) : Option ConnectedClient :=
  let s := sscanf4 junkHost l
  if 3 ≤ s.count then
    some
      { mac := s.mac.take 17
        ip := s.ip.take 45
        hostname :=
          if headIsStar s.host then "(unknown)".data
          else s.host.take 63 }
  else none

/-- Mirrors `net_get_connected_clients`: read lease lines in file order while
fewer than `maxClients` entries have been produced, skipping lines with
fewer than three fields. -/
def net_get_connected_clients (junkHost : List Char) :
    List (List Char) → Nat → List ConnectedClient
  | [], _ => []
  | _ :: _, 0 => []
  | l :: rest, m + 1 =>
    match leaseLineClient junkHost l with
    | some cl => cl :: net_get_connected_clients junkHost rest m
    | none => net_get_connected_clients junkHost rest (m + 1)

/-! ## Concrete inputs used in counterexamples and witnesses -/

/-- An AP daemon that rejects every attempt with the channel/hw-mode
rejection message. -/
def envRejectAll : Nat → TryResult :=
  fun _ => ⟨false, "Could not select hw_mode and channel".data⟩

/-- A system state with forwarding disabled and no rules installed. -/
def sysIdle : NatSys :=
  ⟨false, false, false, false⟩

/-- Kill outcomes where every TERM is delivered and every target exits in
the poll window. -/
def killAllClean : KillOracle :=
  ⟨true, true, true, true⟩

/-- A start environment whose interface discovery fails (every later oracle
is arbitrary and unreachable). -/
def envDetectFail : StartEnv :=
  { detectOk := false, detectedChannel := 0, phyOk := true, createOk := true
    genHostapdOk := true, genDnsmasqOk := true
    hostapdTries := fun _ => ⟨false, []⟩, hostapdPid := 0
    dnsmasqLaunchOk := true, dnsmasqPid := 0
    kill := killAllClean, now := 0 }

/-- A start environment that fails at hostapd config generation (everything
earlier succeeds). -/
def envGenHostapdFail : StartEnv :=
  { detectOk := true, detectedChannel := 11, phyOk := true, createOk := true
    genHostapdOk := false, genDnsmasqOk := true
    hostapdTries := fun _ => ⟨true, []⟩, hostapdPid := 1234
    dnsmasqLaunchOk := true, dnsmasqPid := 77
    kill := killAllClean, now := 5 }

/-- First example lease line of the spec. -/
def leaseLine1 : List Char := "0 aa:bb:cc:dd:ee:ff 192.168.12.10 phone".data

/-- Second example lease line of the spec (hostname is the `*` sentinel). -/
def leaseLine2 : List Char := "0 11:22:33:44:55:66 192.168.12.11 *".data

end HotspotModel

namespace HotspotModel

/-! ## Helper lemmas -/

/-- A haystack containing a nonempty needle is itself nonempty. -/
theorem strContains_ne_nil {h n : List Char} (hn : n ≠ []) (hc : strContains h n = true) :
    h ≠ [] := by
  intro he
  subst he
  cases n with
  | nil => exact hn rfl
  | cons a as => simp [strContains, leadsWith] at hc

/-- More fuel does not change the rendering once there is enough. -/
theorem natDecAux_mono :
    ∀ fuel fuel' n, n < fuel → n < fuel' → natDecAux fuel n = natDecAux fuel' n := by
  intro fuel
  induction fuel with
  | zero => intro fuel' n h; omega
  | succ f ih =>
    intro fuel' n h h'
    cases fuel' with
    | zero => omega
    | succ f' =>
      by_cases h10 : n < 10
      · simp [natDecAux, h10]
      · have hn : 0 < n := by omega
        have hd : n / 10 < n := Nat.div_lt_self hn (by omega)
        simp only [natDecAux, if_neg h10]
        rw [ih f' (n / 10) (by omega) (by omega)]

/-- The recursive unfolding of `natDec`. -/
theorem natDec_unfold (n : Nat) :
    natDec n = if n < 10 then [digitChar n] else natDec (n / 10) ++ [digitChar (n % 10)] := by
  have hstep : natDec n
      = if n < 10 then [digitChar n] else natDecAux n (n / 10) ++ [digitChar (n % 10)] := rfl
  by_cases h10 : n < 10
  · rw [hstep, if_pos h10, if_pos h10]
  · have hd : n / 10 < n := Nat.div_lt_self (by omega) (by omega)
    rw [hstep, if_neg h10, if_neg h10, natDec,
      natDecAux_mono n (n / 10 + 1) (n / 10) (by omega) (by omega)]

/-- Digit characters are digits and not sign or space characters. -/
theorem digitChar_props (d : Nat) (h : d < 10) :
    isDigitC (digitChar d) = true ∧ isSpaceC (digitChar d) = false ∧
      digitChar d ≠ '-' ∧ digitChar d ≠ '+' ∧ digitChar d ≠ '\n' ∧
      (digitChar d).toNat = 48 + d := by
  interval_cases d <;> refine ⟨by decide, by decide, by decide, by decide, by decide, by decide⟩

/-- Every character of `natDec n` is a digit. -/
theorem natDec_digits (n : Nat) : ∀ c ∈ natDec n, isDigitC c = true := by
  induction n using Nat.strong_induction_on with
  | _ n ih =>
    rw [natDec_unfold]
    by_cases h10 : n < 10
    · simp only [if_pos h10, List.mem_singleton]
      rintro c rfl
      exact (digitChar_props n h10).1
    · have hn : 0 < n := by omega
      have hd : n / 10 < n := Nat.div_lt_self hn (by omega)
      simp only [if_neg h10, List.mem_append, List.mem_singleton]
      rintro c (hc | rfl)
      · exact ih (n / 10) hd c hc
      · exact (digitChar_props (n % 10) (Nat.mod_lt n (by omega))).1

/-- The rendering `natDec` is never empty. -/
theorem natDec_ne_nil (n : Nat) : natDec n ≠ [] := by
  rw [natDec_unfold]
  by_cases h10 : n < 10 <;> simp [h10]

/-- Appending one digit multiplies the value by ten. -/
theorem digitsVal_append_digit (xs : List Char) (c : Char) :
    digitsVal (xs ++ [c]) = digitsVal xs * 10 + (c.toNat - '0'.toNat) := by
  simp [digitsVal, List.foldl_append]

/-- Reading back digits inverts `natDec`. -/
theorem digitsVal_natDec (n : Nat) : digitsVal (natDec n) = n := by
  induction n using Nat.strong_induction_on with
  | _ n ih =>
    have h0 : '0'.toNat = 48 := rfl
    rw [natDec_unfold]
    by_cases h10 : n < 10
    · simp only [if_pos h10, digitsVal, List.foldl_cons, List.foldl_nil]
      rw [(digitChar_props n h10).2.2.2.2.2, h0]
      omega
    · have hn : 0 < n := by omega
      have hd : n / 10 < n := Nat.div_lt_self hn (by omega)
      simp only [if_neg h10]
      rw [digitsVal_append_digit, ih (n / 10) hd,
        (digitChar_props (n % 10) (Nat.mod_lt n (by omega))).2.2.2.2.2, h0]
      omega

/-- The leading-digit run of `natDec n` is all of it. -/
theorem takeWhile_natDec (n : Nat) : (natDec n).takeWhile isDigitC = natDec n :=
  List.takeWhile_eq_self_iff.mpr (natDec_digits n)

/-- Reading the leading digit run inverts `natDec`. -/
theorem leadingDigitsVal_natDec (n : Nat) : leadingDigitsVal (natDec n) = n := by
  rw [leadingDigitsVal, takeWhile_natDec, digitsVal_natDec]

/-- The rendering `natDec n` starts with a digit. -/
theorem natDec_head (n : Nat) :
    ∃ c cs, natDec n = c :: cs ∧ isDigitC c = true := by
  cases hn : natDec n with
  | nil => exact absurd hn (natDec_ne_nil n)
  | cons c cs =>
    refine ⟨c, cs, rfl, natDec_digits n c ?_⟩
    rw [hn]; exact List.mem_cons_self c cs

/-- A digit is not a sign, space, or newline character. -/
theorem isDigitC_not_special {c : Char} (h : isDigitC c = true) :
    isSpaceC c = false ∧ c ≠ '-' ∧ c ≠ '+' := by
  refine ⟨?_, ?_, ?_⟩
  · by_contra hs
    simp only [Bool.not_eq_false, isSpaceC, Bool.or_eq_true, decide_eq_true_eq] at hs
    rcases hs with (((((he | he) | he) | he) | he) | he) <;>
      (subst he; exact absurd h (by decide))
  · intro he; subst he; exact absurd h (by decide)
  · intro he; subst he; exact absurd h (by decide)

/-- Parsing inverts printing: decimal print then `atoi` is the identity. -/
theorem atoi_intDec (z : Int) : atoi (intDec z) = z := by
  obtain ⟨c, cs, hcons, hdig⟩ := natDec_head z.natAbs
  obtain ⟨hsp, hminus, hplus⟩ := isDigitC_not_special hdig
  by_cases hz : z < 0
  · have hint : intDec z = '-' :: natDec z.natAbs := by simp [intDec, hz]
    have hdw : List.dropWhile isSpaceC ('-' :: natDec z.natAbs)
        = '-' :: natDec z.natAbs := by
      rw [List.dropWhile_cons, if_neg (by decide)]
    rw [hint]
    simp only [atoi, hdw, if_pos, leadingDigitsVal_natDec]
    omega
  · have hint : intDec z = natDec z.natAbs := by simp [intDec, hz]
    have hdw : List.dropWhile isSpaceC (c :: cs) = c :: cs := by
      rw [List.dropWhile_cons, if_neg (by simp [hsp])]
    rw [hint, hcons]
    simp only [atoi, hdw, if_neg hminus, if_neg hplus]
    rw [← hcons, leadingDigitsVal_natDec]
    omega

/-- Whatever the attempt outcomes, `hostapdPhase3` leaves the config channel
at the value passed in. -/
theorem hostapdPhase3_cfgChannelAfter (env : Nat → TryResult) (idx : Nat)
    (cfgCh wifiCh : Int) (ssid pass : List Char) (hidden rejected : Bool)
    (lastLog : List Char) (acc : List Attempt) :
    (hostapdPhase3 env idx cfgCh wifiCh ssid pass hidden rejected lastLog acc).cfgChannelAfter
      = cfgCh := by
  simp only [hostapdPhase3]
  repeat' split
  all_goals rfl

/-- The helper `hostapdPhase3` records a Phase 3 attempt exactly when the rejection
verdict holds and the client channel is 5 GHz (provided the attempts
accumulated so far are not Phase 3 ones). -/
theorem hostapdPhase3_attempted (env : Nat → TryResult) (idx : Nat)
    (cfgCh wifiCh : Int) (ssid pass : List Char) (hidden rejected : Bool)
    (lastLog : List Char) (acc : List Attempt)
    (hacc : acc.any (fun a => a.phase == Phase.p3full) = false) :
    phase3Attempted (hostapdPhase3 env idx cfgCh wifiCh ssid pass hidden rejected lastLog acc)
      = (rejected && is_5ghz_channel wifiCh) := by
  simp only [hostapdPhase3, phase3Attempted]
  by_cases hr : (rejected && is_5ghz_channel wifiCh) = true
  · rw [if_pos hr, hr]
    repeat' split
    all_goals simp [List.any_append, hacc]
  · rw [if_neg hr]
    simp only [Bool.not_eq_true] at hr
    simp [hacc, hr]

/-! ## Claim C2 -/

/-- C2: for every outcome of the negotiation (success in any phase, or total
failure), `start_hostapd` returns with `status.config.channel` equal to the
value it had on entry; the Phase 3 override to channel 6 is never visible
afterwards. -/
theorem start_hostapd_restores_config_channel
    (env : Nat → TryResult) (cfgCh wifiCh : Int) (ssid pass : List Char) (hidden : Bool) :
    (start_hostapd env cfgCh wifiCh ssid pass hidden).cfgChannelAfter = cfgCh := by
  simp only [start_hostapd]
  repeat' split
  all_goals first
    | rfl
    | apply hostapdPhase3_cfgChannelAfter

/-! ## Claim C1 -/

/-- C1 counterexample: with config channel 149 and the client on channel 6,
the resolved channel is 149 (5 GHz) and the failure log carries the
"Could not select" rejection, yet the Phase 3 fallback is never attempted —
the code gates Phase 3 on the client channel, not the resolved channel. -/
theorem phase3_gate_counterexample :
    strContains (envRejectAll 0).log rejectNeedle = true ∧
    32 ≤ resolve_channel 149 6 ∧
    (start_hostapd envRejectAll 149 6 [] [] false).ok = false ∧
    phase3Attempted (start_hostapd envRejectAll 149 6 [] [] false) = false :=
  ⟨by decide, by decide, by decide, by decide⟩

/-- C1 (amended): the Phase 3 fallback is attempted exactly when a
channel/hw-mode rejection was detected in the failure log and the *client
current channel of the client interface* (`status.wifi.channel`, not the resolved
channel) is in the 5 GHz range. -/
theorem phase3_gate_amended
    (env : Nat → TryResult) (cfgCh wifiCh : Int) (ssid pass : List Char) (hidden : Bool) :
    phase3Attempted (start_hostapd env cfgCh wifiCh ssid pass hidden)
      = (channelRejectionDetected env && is_5ghz_channel wifiCh) := by
  by_cases h0 : (env 0).ok
  · simp [start_hostapd, h0, channelRejectionDetected, phase3Attempted]
  · by_cases h1 : strContains (env 0).log rejectNeedle
    · rw [show channelRejectionDetected env = true by
        simp [channelRejectionDetected, h0, h1]]
      simp only [start_hostapd, if_neg h0, h1, if_true, if_pos]
      rw [hostapdPhase3_attempted _ _ _ _ _ _ _ _ _ _ (by simp)]
    · by_cases h2 : (env 1).ok
      · rw [show channelRejectionDetected env = false by
          simp [channelRejectionDetected, h0, h1, h2]]
        simp [start_hostapd, h0, h1, h2, phase3Attempted]
      · rw [show channelRejectionDetected env = strContains (env 1).log rejectNeedle by
          simp [channelRejectionDetected, h0, h1, h2]]
        simp only [start_hostapd, if_neg h0, h1, if_false, if_neg h2, Bool.false_eq_true]
        rw [hostapdPhase3_attempted _ _ _ _ _ _ _ _ _ _ (by simp)]

/-! ## Claim C5 -/

/-- C5 counterexample: the sentinel channel 0 with the client on channel 149
resolves to 149 and yields hw_mode "a" (5 GHz), not the 2.4 GHz mode "g"
the claim asserts for the sentinel. -/
theorem band_sentinel_counterexample :
    (generate_hostapd_conf 0 149 [] [] false false).hwMode = "a".data ∧
    (generate_hostapd_conf 0 149 [] [] false false).hwMode ≠ "g".data :=
  ⟨by decide, by decide⟩

/-- C5 (amended): channels ≥ 32 resolve to 5 GHz ("a"); channels in [1,14]
resolve to 2.4 GHz ("g"); the sentinel 0 first resolves to the client
channel (falling back to 6 when that is ≤ 0) and the band decision is then
made on the resolved channel (so 0 yields "g" exactly when the resolved
value is below 32). -/
theorem band_resolution_amended :
    (∀ cfgCh wifiCh : Int, ∀ ssid pass : List Char, ∀ hidden minimal : Bool,
      32 ≤ cfgCh →
      (generate_hostapd_conf cfgCh wifiCh ssid pass hidden minimal).hwMode = "a".data) ∧
    (∀ cfgCh wifiCh : Int, ∀ ssid pass : List Char, ∀ hidden minimal : Bool,
      1 ≤ cfgCh → cfgCh ≤ 14 →
      (generate_hostapd_conf cfgCh wifiCh ssid pass hidden minimal).hwMode = "g".data) ∧
    (∀ wifiCh : Int, resolve_channel 0 wifiCh = if wifiCh ≤ 0 then 6 else wifiCh) ∧
    (∀ cfgCh wifiCh : Int, ∀ ssid pass : List Char, ∀ hidden minimal : Bool,
      (generate_hostapd_conf cfgCh wifiCh ssid pass hidden minimal).hwMode =
        if 32 ≤ resolve_channel cfgCh wifiCh then "a".data else "g".data) := by
  refine ⟨?_, ?_, ?_, ?_⟩
  · intro cfgCh wifiCh ssid pass hidden minimal h32
    simp [generate_hostapd_conf, resolve_channel, is_5ghz_channel,
      show cfgCh ≠ 0 by omega, h32]
  · intro cfgCh wifiCh ssid pass hidden minimal h1 h14
    simp [generate_hostapd_conf, resolve_channel, is_5ghz_channel,
      show cfgCh ≠ 0 by omega, show ¬(32 ≤ cfgCh) by omega]
  · intro wifiCh
    simp [resolve_channel]
  · intro cfgCh wifiCh ssid pass hidden minimal
    simp [generate_hostapd_conf, is_5ghz_channel]

/-- Closed instance of `band_resolution_amended`, discharging each hypothesis
at a concrete channel. -/
theorem band_resolution_amended_witness :
    (generate_hostapd_conf 149 6 [] [] false false).hwMode = "a".data ∧
    (generate_hostapd_conf 11 40 [] [] false true).hwMode = "g".data ∧
    resolve_channel 0 (-2) = (if (-2 : Int) ≤ 0 then 6 else -2) ∧
    (generate_hostapd_conf 0 149 [] [] true false).hwMode =
      (if 32 ≤ resolve_channel 0 149 then "a".data else "g".data) :=
  ⟨band_resolution_amended.1 149 6 [] [] false false (by norm_num),
   band_resolution_amended.2.1 11 40 [] [] false true (by norm_num) (by norm_num),
   band_resolution_amended.2.2.1 (-2),
   band_resolution_amended.2.2.2 0 149 [] [] true false⟩

/-! ## Claim C3 -/

/-- C3: `setup_nat` captures the prior forwarding flag into
`ip_forward_was_enabled` before force-enabling it, and every teardown path
(`remove_nat`, from `hotspot_cleanup` and `hotspot_stop`) restores
forwarding from the recorded value — it is disabled only when the recorded
value is false, so a teardown after a capture of an enabled flag never
disables forwarding. -/
theorem ip_forward_capture_restore :
    (∀ sys st, (setup_nat sys st).2.1.ip_forward_was_enabled = sys.ip_forward) ∧
    (∀ sys st, (setup_nat sys st).1.ip_forward = true) ∧
    (∀ sys st, (remove_nat sys st).ip_forward
      = (st.ip_forward_was_enabled && sys.ip_forward)) ∧
    (∀ st sys k, (hotspot_cleanup st sys k).sys.ip_forward
      = (st.ip_forward_was_enabled && sys.ip_forward)) ∧
    (∀ st sys k, (hotspot_stop st sys k).sys.ip_forward
      = (st.ip_forward_was_enabled && sys.ip_forward)) ∧
    (∀ sys st sysMid k, sys.ip_forward = true →
      (hotspot_cleanup (setup_nat sys st).2.1 sysMid k).sys.ip_forward
        = sysMid.ip_forward) := by
  have hrem : ∀ sys st, (remove_nat sys st).ip_forward
      = (st.ip_forward_was_enabled && sys.ip_forward) := by
    intro sys st
    by_cases hb : st.ip_forward_was_enabled <;> simp [remove_nat, hb]
  refine ⟨fun sys st => rfl, fun sys st => rfl, hrem, ?_, ?_, ?_⟩
  · intro st sys k
    simp [hotspot_cleanup, hrem]
  · intro st sys k
    simp [hotspot_stop, hotspot_cleanup, hrem]
  · intro sys st sysMid k
    intro hen
    simp [hotspot_cleanup, hrem, setup_nat, hen]

/-- Closed instance of `ip_forward_capture_restore`: forwarding enabled
before the run stays enabled after cleanup. -/
theorem ip_forward_capture_restore_witness :
    (⟨true, false, false, false⟩ : NatSys).ip_forward = true ∧
    (hotspot_cleanup (setup_nat ⟨true, false, false, false⟩ hotspot_init).2.1 sysIdle
      killAllClean).sys.ip_forward = sysIdle.ip_forward :=
  ⟨rfl, ip_forward_capture_restore.2.2.2.2.2 ⟨true, false, false, false⟩ hotspot_init
    sysIdle killAllClean rfl⟩

/-! ## Claim C8 -/

/-- C8: calling `hotspot_stop` when the state is already Stopped (recorded
daemon pids 0, nothing of ours running) is idempotent — it returns true, the
state is Stopped afterward, the recorded-pid kill path emits nothing (only
the unconditional best-effort pattern pkill remains), and no process is
signaled. -/
theorem stop_idempotent_when_stopped
    (st : HotspotStatus) (sys : NatSys) (k : KillOracle) (procs : List ProcEntry)
    (_hstate : st.state = HState.stopped)
    (hh : st.hostapd_pid = 0) (hd : st.dnsmasq_pid = 0)
    (hp : ∀ pr ∈ procs, strContains pr.cmdline dnsmasqConfPath = false) :
    (hotspot_stop st sys k).ret = true ∧
    (hotspot_stop st sys k).status.state = HState.stopped ∧
    (hotspot_stop st sys k).events = [SigEvent.pkillPattern dnsmasqConfPath] ∧
    signaledPids procs (hotspot_stop st sys k).events = [] := by
  have hfil : procs.filter (fun pr => strContains pr.cmdline dnsmasqConfPath) = [] :=
    List.filter_eq_nil_iff.mpr (by intro a ha; simp [hp a ha])
  have hev : (hotspot_stop st sys k).events = [SigEvent.pkillPattern dnsmasqConfPath] := by
    simp [hotspot_stop, hotspot_cleanup, kill_process, hh, hd]
  refine ⟨rfl, rfl, hev, ?_⟩
  rw [hev]
  simp [signaledPids, sigTargets, hfil]

/-- Closed instance of `stop_idempotent_when_stopped` at the freshly
initialized (Stopped) status and an empty process table. -/
theorem stop_idempotent_when_stopped_witness :
    hotspot_init.state = HState.stopped ∧ hotspot_init.hostapd_pid = 0 ∧
    hotspot_init.dnsmasq_pid = 0 ∧
    ((hotspot_stop hotspot_init sysIdle killAllClean).ret = true ∧
     (hotspot_stop hotspot_init sysIdle killAllClean).status.state = HState.stopped ∧
     (hotspot_stop hotspot_init sysIdle killAllClean).events
       = [SigEvent.pkillPattern dnsmasqConfPath] ∧
     signaledPids [] (hotspot_stop hotspot_init sysIdle killAllClean).events = []) :=
  ⟨rfl, rfl, rfl,
    stop_idempotent_when_stopped hotspot_init sysIdle killAllClean [] rfl rfl rfl
      (by intro pr h; cases h)⟩

/-! ## Claim C10 -/

/-- C10: `kill_process` with a pid ≤ 0 emits no signal at all — neither the
TERM/KILL escalation nor the pkill-by-name backstop — and consequently a
cleanup whose recorded daemon pids are 0 emits nothing through the
recorded-pid path (only the unconditional config-path pattern sweep). -/
theorem kill_process_noop_nonpositive :
    (∀ (pid : Int) (pname : List Char) (td dp : Bool), pid ≤ 0 →
      kill_process pid pname td dp = []) ∧
    (∀ st sys k, st.hostapd_pid ≤ 0 → st.dnsmasq_pid ≤ 0 →
      (hotspot_cleanup st sys k).events = [SigEvent.pkillPattern dnsmasqConfPath]) := by
  constructor
  · intro pid pname td dp h
    simp [kill_process, h]
  · intro st sys k hh hd
    simp [hotspot_cleanup, kill_process, hh, hd]

/-- Closed instance of `kill_process_noop_nonpositive` at pid 0 and the
initial status. -/
theorem kill_process_noop_nonpositive_witness :
    ((0 : Int) ≤ 0 ∧ kill_process 0 "hostapd".data true false = []) ∧
    (hotspot_init.hostapd_pid ≤ 0 ∧ hotspot_init.dnsmasq_pid ≤ 0 ∧
      (hotspot_cleanup hotspot_init sysIdle killAllClean).events
        = [SigEvent.pkillPattern dnsmasqConfPath]) :=
  ⟨⟨le_refl 0, kill_process_noop_nonpositive.1 0 "hostapd".data true false (le_refl 0)⟩,
   ⟨by decide, by decide,
     kill_process_noop_nonpositive.2 hotspot_init sysIdle killAllClean
       (by decide) (by decide)⟩⟩

/-! ## Claim C4 -/

/-- Newline collapsing leaves no newline behind. -/
theorem collapseNl_no_newline (l : List Char) : '\n' ∉ collapseNl l := by
  intro hm
  rw [collapseNl, List.mem_map] at hm
  obtain ⟨a, _, ha⟩ := hm
  by_cases hn : a = '\n' <;> simp [hn] at ha

/-- Printed integers never contain a newline. -/
theorem intDec_no_newline (z : Int) : '\n' ∉ intDec z := by
  have hnat : ∀ n : Nat, '\n' ∉ natDec n := by
    intro n hm
    have := natDec_digits n '\n' hm
    exact absurd this (by decide)
  rw [intDec]
  by_cases hz : z < 0
  · rw [if_pos hz]
    intro hm
    rcases List.mem_cons.mp hm with he | hm'
    · exact absurd he.symm (by decide)
    · exact hnat _ hm'
  · rw [if_neg hz]
    exact hnat _

/-- The composed negotiation failure message is nonempty and single-line. -/
theorem hostapdFailMsg_props (r i : Bool) (ch : Int) (lg : List Char) :
    hostapdFailMsg r i ch lg ≠ [] ∧ '\n' ∉ hostapdFailMsg r i ch lg := by
  rw [hostapdFailMsg]
  by_cases hri : (r && i) = true
  · rw [if_pos hri]
    constructor
    · simp
    · intro hm
      rw [List.append_assoc, List.mem_append] at hm
      rcases hm with hm | hm
      · exact absurd hm (by decide)
      · rw [List.mem_append] at hm
        rcases hm with hm | hm
        · exact intDec_no_newline ch hm
        · exact absurd hm (by decide)
  · rw [if_neg hri]
    constructor
    · simp
    · intro hm
      rw [List.mem_append] at hm
      rcases hm with hm | hm
      · exact absurd hm (by decide)
      · exact collapseNl_no_newline lg (List.mem_of_mem_take hm)

/-- On failure, the stored negotiation error message is one of the
`hostapdFailMsg` forms. -/
theorem start_hostapd_errorMsg_form (env : Nat → TryResult) (cfgCh wifiCh : Int)
    (ssid pass : List Char) (hidden : Bool) :
    (start_hostapd env cfgCh wifiCh ssid pass hidden).ok = true ∨
    ∃ r lg, (start_hostapd env cfgCh wifiCh ssid pass hidden).errorMsg
      = hostapdFailMsg r (is_5ghz_channel wifiCh) wifiCh lg := by
  have hp3 : ∀ idx rejected lastLog acc,
      (hostapdPhase3 env idx cfgCh wifiCh ssid pass hidden rejected lastLog acc).ok = true ∨
      ∃ lg, (hostapdPhase3 env idx cfgCh wifiCh ssid pass hidden rejected lastLog acc).errorMsg
        = hostapdFailMsg rejected (is_5ghz_channel wifiCh) wifiCh lg := by
    intro idx rejected lastLog acc
    simp only [hostapdPhase3]
    repeat' split
    · left; rfl
    · left; rfl
    · right; exact ⟨_, rfl⟩
    · right; exact ⟨_, rfl⟩
  simp only [start_hostapd]
  repeat' split
  · left; rfl
  · rcases hp3 1 true (env 0).log _ with h | ⟨lg, h⟩
    · left; exact h
    · right; exact ⟨true, lg, h⟩
  · left; rfl
  · rcases hp3 2 (strContains (env 1).log rejectNeedle) (env 1).log _ with h | ⟨lg, h⟩
    · left; exact h
    · right; exact ⟨strContains (env 1).log rejectNeedle, lg, h⟩

/-- On failure, the negotiation error message is nonempty and single-line. -/
theorem start_hostapd_errorMsg_props (env : Nat → TryResult) (cfgCh wifiCh : Int)
    (ssid pass : List Char) (hidden : Bool)
    (hfail : (start_hostapd env cfgCh wifiCh ssid pass hidden).ok = false) :
    (start_hostapd env cfgCh wifiCh ssid pass hidden).errorMsg ≠ [] ∧
    '\n' ∉ (start_hostapd env cfgCh wifiCh ssid pass hidden).errorMsg := by
  rcases start_hostapd_errorMsg_form env cfgCh wifiCh ssid pass hidden with h | ⟨r, lg, h⟩
  · rw [h] at hfail; cases hfail
  · rw [h]
    exact hostapdFailMsg_props r (is_5ghz_channel wifiCh) wifiCh lg

/-- C4 counterexample: a discovery failure is a fatal `start()` error that
sets state Error with a message, but does *not* trigger the full cleanup
routine — contradicting the claim that every fatal error does. -/
theorem start_cleanup_counterexample :
    (hotspot_start hotspot_init sysIdle envDetectFail).ret = false ∧
    (hotspot_start hotspot_init sysIdle envDetectFail).status.state = HState.error ∧
    (hotspot_start hotspot_init sysIdle envDetectFail).status.error_msg ≠ [] ∧
    (hotspot_start hotspot_init sysIdle envDetectFail).ranCleanup = false :=
  ⟨by decide, by decide, by decide, by decide⟩

/-- C4 (amended): every fatal error during `start()` sets state Error and the
stored message is single-line, but cleanup is triggered only for failures
from config generation onward; discovery, phy-resolution, and AP-creation
failures return without cleanup, and the DHCP liveness failure (launch
succeeded, no live pid) stores no message at all. -/
theorem start_error_paths_amended (st : HotspotStatus) (sys : NatSys) (env : StartEnv) :
    (env.detectOk = false →
      (hotspot_start st sys env).status.state = HState.error ∧
      (hotspot_start st sys env).status.error_msg = "No WiFi interface detected.".data ∧
      (hotspot_start st sys env).ranCleanup = false) ∧
    (env.detectOk = true → env.phyOk = false →
      (hotspot_start st sys env).status.state = HState.error ∧
      (hotspot_start st sys env).status.error_msg
        = "Cannot determine physical WiFi device.".data ∧
      (hotspot_start st sys env).ranCleanup = false) ∧
    (env.detectOk = true → env.phyOk = true → env.createOk = false →
      (hotspot_start st sys env).status.state = HState.error ∧
      (hotspot_start st sys env).status.error_msg = createFailMsg ∧
      (hotspot_start st sys env).ranCleanup = false) ∧
    (env.detectOk = true → env.phyOk = true → env.createOk = true →
      env.genHostapdOk = false →
      (hotspot_start st sys env).status.state = HState.error ∧
      (hotspot_start st sys env).status.error_msg
        = "Failed to generate hostapd configuration.".data ∧
      (hotspot_start st sys env).ranCleanup = true) ∧
    (env.detectOk = true → env.phyOk = true → env.createOk = true →
      env.genHostapdOk = true → env.genDnsmasqOk = false →
      (hotspot_start st sys env).status.state = HState.error ∧
      (hotspot_start st sys env).status.error_msg
        = "Failed to generate dnsmasq configuration.".data ∧
      (hotspot_start st sys env).ranCleanup = true) ∧
    (env.detectOk = true → env.phyOk = true → env.createOk = true →
      env.genHostapdOk = true → env.genDnsmasqOk = true →
      (start_hostapd env.hostapdTries st.cfgChannel env.detectedChannel
        st.cfgSsid st.cfgPassword st.cfgHidden).ok = false →
      (hotspot_start st sys env).status.state = HState.error ∧
      (hotspot_start st sys env).status.error_msg
        = (start_hostapd env.hostapdTries st.cfgChannel env.detectedChannel
            st.cfgSsid st.cfgPassword st.cfgHidden).errorMsg ∧
      (hotspot_start st sys env).status.error_msg ≠ [] ∧
      (hotspot_start st sys env).ranCleanup = true) ∧
    (env.detectOk = true → env.phyOk = true → env.createOk = true →
      env.genHostapdOk = true → env.genDnsmasqOk = true →
      (start_hostapd env.hostapdTries st.cfgChannel env.detectedChannel
        st.cfgSsid st.cfgPassword st.cfgHidden).ok = true →
      env.dnsmasqLaunchOk = false →
      (hotspot_start st sys env).status.state = HState.error ∧
      (hotspot_start st sys env).status.error_msg
        = "Failed to start dnsmasq. Port 53 may be in use.".data ∧
      (hotspot_start st sys env).ranCleanup = true) ∧
    (env.detectOk = true → env.phyOk = true → env.createOk = true →
      env.genHostapdOk = true → env.genDnsmasqOk = true →
      (start_hostapd env.hostapdTries st.cfgChannel env.detectedChannel
        st.cfgSsid st.cfgPassword st.cfgHidden).ok = true →
      env.dnsmasqLaunchOk = true → env.dnsmasqPid ≤ 0 →
      (hotspot_start st sys env).status.state = HState.error ∧
      (hotspot_start st sys env).status.error_msg = [] ∧
      (hotspot_start st sys env).ranCleanup = true) ∧
    ((hotspot_start st sys env).ret = false →
      (hotspot_start st sys env).status.state = HState.error ∧
      '\n' ∉ (hotspot_start st sys env).status.error_msg) := by
  refine ⟨?_, ?_, ?_, ?_, ?_, ?_, ?_, ?_, ?_⟩
  · intro h1
    refine ⟨by simp [hotspot_start, h1], by simp [hotspot_start, h1], by simp [hotspot_start, h1]⟩
  · intro h1 h2
    refine ⟨by simp [hotspot_start, h1, h2], by simp [hotspot_start, h1, h2],
      by simp [hotspot_start, h1, h2]⟩
  · intro h1 h2 h3
    refine ⟨by simp [hotspot_start, h1, h2, h3], by simp [hotspot_start, h1, h2, h3],
      by simp [hotspot_start, h1, h2, h3]⟩
  · intro h1 h2 h3 h4
    refine ⟨by simp [hotspot_start, hotspot_cleanup, h1, h2, h3, h4],
      by simp [hotspot_start, hotspot_cleanup, h1, h2, h3, h4],
      by simp [hotspot_start, h1, h2, h3, h4]⟩
  · intro h1 h2 h3 h4 h5
    refine ⟨by simp [hotspot_start, hotspot_cleanup, h1, h2, h3, h4, h5],
      by simp [hotspot_start, hotspot_cleanup, h1, h2, h3, h4, h5],
      by simp [hotspot_start, h1, h2, h3, h4, h5]⟩
  · intro h1 h2 h3 h4 h5 hrun
    have hmsg := start_hostapd_errorMsg_props env.hostapdTries st.cfgChannel
      env.detectedChannel st.cfgSsid st.cfgPassword st.cfgHidden hrun
    have hemsg : (hotspot_start st sys env).status.error_msg
        = (start_hostapd env.hostapdTries st.cfgChannel env.detectedChannel
            st.cfgSsid st.cfgPassword st.cfgHidden).errorMsg := by
      simp [hotspot_start, hotspot_cleanup, h1, h2, h3, h4, h5, hrun]
    refine ⟨by simp [hotspot_start, hotspot_cleanup, h1, h2, h3, h4, h5, hrun],
      hemsg, ?_, by simp [hotspot_start, h1, h2, h3, h4, h5, hrun]⟩
    rw [hemsg]
    exact hmsg.1
  · intro h1 h2 h3 h4 h5 hrun h7
    refine ⟨by simp [hotspot_start, hotspot_cleanup, h1, h2, h3, h4, h5, hrun, h7],
      by simp [hotspot_start, hotspot_cleanup, h1, h2, h3, h4, h5, hrun, h7],
      by simp [hotspot_start, h1, h2, h3, h4, h5, hrun, h7]⟩
  · intro h1 h2 h3 h4 h5 hrun h7 h8
    refine ⟨by simp [hotspot_start, hotspot_cleanup, h1, h2, h3, h4, h5, hrun, h7, h8],
      by simp [hotspot_start, hotspot_cleanup, h1, h2, h3, h4, h5, hrun, h7, h8],
      by simp [hotspot_start, h1, h2, h3, h4, h5, hrun, h7, h8]⟩
  · intro hret
    by_cases h1 : env.detectOk
    case neg =>
      refine ⟨by simp [hotspot_start, h1], ?_⟩
      have : (hotspot_start st sys env).status.error_msg
          = "No WiFi interface detected.".data := by simp [hotspot_start, h1]
      rw [this]; decide
    all_goals by_cases h2 : env.phyOk
    case neg =>
      refine ⟨by simp [hotspot_start, h1, h2], ?_⟩
      have : (hotspot_start st sys env).status.error_msg
          = "Cannot determine physical WiFi device.".data := by
        simp [hotspot_start, h1, h2]
      rw [this]; decide
    all_goals by_cases h3 : env.createOk
    case neg =>
      refine ⟨by simp [hotspot_start, h1, h2, h3], ?_⟩
      have : (hotspot_start st sys env).status.error_msg = createFailMsg := by
        simp [hotspot_start, h1, h2, h3]
      rw [this]; decide
    all_goals by_cases h4 : env.genHostapdOk
    case neg =>
      refine ⟨by simp [hotspot_start, hotspot_cleanup, h1, h2, h3, h4], ?_⟩
      have : (hotspot_start st sys env).status.error_msg
          = "Failed to generate hostapd configuration.".data := by
        simp [hotspot_start, hotspot_cleanup, h1, h2, h3, h4]
      rw [this]; decide
    all_goals by_cases h5 : env.genDnsmasqOk
    case neg =>
      refine ⟨by simp [hotspot_start, hotspot_cleanup, h1, h2, h3, h4, h5], ?_⟩
      have : (hotspot_start st sys env).status.error_msg
          = "Failed to generate dnsmasq configuration.".data := by
        simp [hotspot_start, hotspot_cleanup, h1, h2, h3, h4, h5]
      rw [this]; decide
    all_goals by_cases hrun : (start_hostapd env.hostapdTries st.cfgChannel
      env.detectedChannel st.cfgSsid st.cfgPassword st.cfgHidden).ok
    case neg =>
      simp only [Bool.not_eq_true] at hrun
      have hmsg := start_hostapd_errorMsg_props env.hostapdTries st.cfgChannel
        env.detectedChannel st.cfgSsid st.cfgPassword st.cfgHidden hrun
      refine ⟨by simp [hotspot_start, hotspot_cleanup, h1, h2, h3, h4, h5, hrun], ?_⟩
      have : (hotspot_start st sys env).status.error_msg
          = (start_hostapd env.hostapdTries st.cfgChannel env.detectedChannel
              st.cfgSsid st.cfgPassword st.cfgHidden).errorMsg := by
        simp [hotspot_start, hotspot_cleanup, h1, h2, h3, h4, h5, hrun]
      rw [this]; exact hmsg.2
    all_goals by_cases h7 : env.dnsmasqLaunchOk
    case neg =>
      refine ⟨by simp [hotspot_start, hotspot_cleanup, h1, h2, h3, h4, h5, hrun, h7], ?_⟩
      have : (hotspot_start st sys env).status.error_msg
          = "Failed to start dnsmasq. Port 53 may be in use.".data := by
        simp [hotspot_start, hotspot_cleanup, h1, h2, h3, h4, h5, hrun, h7]
      rw [this]; decide
    all_goals by_cases h8 : env.dnsmasqPid ≤ 0
    case pos =>
      refine ⟨by simp [hotspot_start, hotspot_cleanup, h1, h2, h3, h4, h5, hrun, h7, h8], ?_⟩
      have : (hotspot_start st sys env).status.error_msg = [] := by
        simp [hotspot_start, hotspot_cleanup, h1, h2, h3, h4, h5, hrun, h7, h8]
      rw [this]; simp
    case neg =>
      exfalso
      have : (hotspot_start st sys env).ret = true := by
        simp [hotspot_start, setup_nat, h1, h2, h3, h4, h5, hrun, h7, h8]
      rw [this] at hret; cases hret

/-- Closed instance of `start_error_paths_amended` at two environments: a
discovery failure (no cleanup) and a hostapd config-generation failure
(cleanup runs). -/
theorem start_error_paths_amended_witness :
    ((hotspot_start hotspot_init sysIdle envDetectFail).status.state = HState.error ∧
     (hotspot_start hotspot_init sysIdle envDetectFail).status.error_msg
       = "No WiFi interface detected.".data ∧
     (hotspot_start hotspot_init sysIdle envDetectFail).ranCleanup = false) ∧
    ((hotspot_start hotspot_init sysIdle envGenHostapdFail).status.state = HState.error ∧
     (hotspot_start hotspot_init sysIdle envGenHostapdFail).status.error_msg
       = "Failed to generate hostapd configuration.".data ∧
     (hotspot_start hotspot_init sysIdle envGenHostapdFail).ranCleanup = true) :=
  ⟨(start_error_paths_amended hotspot_init sysIdle envDetectFail).1 rfl,
   (start_error_paths_amended hotspot_init sysIdle envGenHostapdFail).2.2.2.1
     rfl rfl rfl rfl⟩

/-! ## Claim C6 -/

/-- The applied flag of a line does not depend on the incoming config. -/
theorem applyConfigLine_snd (c : HotspotConfig) (line : List Char) :
    (applyConfigLine c line).2 = recognizedLine line := by
  cases line with
  | nil => rfl
  | cons ch tl =>
    simp only [applyConfigLine, recognizedLine]
    by_cases hch : ch = '#'
    · simp [hch]
    · simp only [if_neg hch]
      cases hsp : splitEq (ch :: tl) with
      | none => rfl
      | some kv =>
        obtain ⟨key, val⟩ := kv
        by_cases k1 : key = "ssid".data
        · simp [k1]
        · by_cases k2 : key = "password".data
          · simp [k1, k2]
          · by_cases k3 : key = "channel".data
            · simp [k1, k2, k3]
            · by_cases k4 : key = "max_clients".data
              · simp [k1, k2, k3, k4]
              · by_cases k5 : key = "hidden".data
                · simp [k1, k2, k3, k4, k5]
                · simp [k1, k2, k3, k4, k5]

/-- A line that applies nothing leaves the config untouched. -/
theorem applyConfigLine_fst_of_false (c : HotspotConfig) (line : List Char)
    (h : (applyConfigLine c line).2 = false) : (applyConfigLine c line).1 = c := by
  cases line with
  | nil => rfl
  | cons ch tl =>
    simp only [applyConfigLine] at h ⊢
    by_cases hch : ch = '#'
    · simp [hch]
    · simp only [if_neg hch] at h ⊢
      cases hsp : splitEq (ch :: tl) with
      | none => simp [hsp]
      | some kv =>
        obtain ⟨key, val⟩ := kv
        simp only [hsp] at h ⊢
        by_cases k1 : key = "ssid".data
        · simp [k1] at h
        · by_cases k2 : key = "password".data
          · simp [k1, k2] at h
          · by_cases k3 : key = "channel".data
            · simp [k1, k2, k3] at h
            · by_cases k4 : key = "max_clients".data
              · simp [k1, k2, k3, k4] at h
              · by_cases k5 : key = "hidden".data
                · simp [k1, k2, k3, k4, k5] at h
                · simp [k1, k2, k3, k4, k5]

/-- If the load fold reports nothing applied, the config came through
unchanged (and the incoming flag was false). -/
theorem loadFold_false :
    ∀ (lines : List (List Char)) (c : HotspotConfig) (b : Bool),
    (List.foldl (fun acc l => let r := applyConfigLine acc.1 l; (r.1, acc.2 || r.2))
        (c, b) lines).2 = false →
    (List.foldl (fun acc l => let r := applyConfigLine acc.1 l; (r.1, acc.2 || r.2))
        (c, b) lines).1 = c ∧ b = false := by
  intro lines
  induction lines with
  | nil => intro c b h; exact ⟨rfl, h⟩
  | cons l tl ih =>
    intro c b h
    simp only [List.foldl_cons] at h ⊢
    obtain ⟨h1, h2⟩ := ih _ _ h
    rw [Bool.or_eq_false_iff] at h2
    exact ⟨h1.trans (applyConfigLine_fst_of_false c l h2.2), h2.1⟩

/-- Splitting at the first `=` recovers a key (without `=`) and a value. -/
theorem splitEq_append (key val : List Char) (hk : '=' ∉ key) :
    splitEq (key ++ '=' :: val) = some (key, val) := by
  induction key with
  | nil => simp [splitEq]
  | cons c cs ih =>
    have hc : c ≠ '=' := fun he => hk (he ▸ List.mem_cons_self c cs)
    have hk' : '=' ∉ cs := fun hm => hk (List.mem_cons_of_mem c hm)
    simp [splitEq, hc, ih hk']

/-- Unfolding `applyConfigLine` on a line that splits into key and value. -/
theorem applyConfigLine_keyval (c0 : HotspotConfig) (ch : Char) (tl key val : List Char)
    (hch : ch ≠ '#') (hsp : splitEq (ch :: tl) = some (key, val)) :
    applyConfigLine c0 (ch :: tl) =
      (if key = "ssid".data then ({ c0 with ssid := val.take 63 }, true)
       else if key = "password".data then ({ c0 with password := val.take 63 }, true)
       else if key = "channel".data then ({ c0 with channel := atoi val }, true)
       else if key = "max_clients".data then ({ c0 with max_clients := atoi val }, true)
       else if key = "hidden".data then ({ c0 with hidden := decide (atoi val ≠ 0) }, true)
       else (c0, false)) := by
  simp only [applyConfigLine, if_neg hch, hsp]

/-- C6: a missing file loads nothing and reports false; a file with no
recognized key=value line loads nothing and reports false; whenever load
reports false the config is exactly what it was before; and saving a valid
config then loading it over any starting config reproduces the SSID,
passphrase, channel, max-clients value, and hidden flag exactly. -/
theorem config_persistence_roundtrip :
    (∀ c, hotspot_load_config c none = (c, false)) ∧
    (∀ c lines, (∀ l ∈ lines, recognizedLine l = false) →
      hotspot_load_config c (some lines) = (c, false)) ∧
    (∀ c file, (hotspot_load_config c file).2 = false →
      (hotspot_load_config c file).1 = c) ∧
    (∀ c0 c, validConfig c →
      hotspot_load_config c0 (some (hotspot_save_config c)) = (c, true)) := by
  refine ⟨fun c => rfl, ?_, ?_, ?_⟩
  · intro c lines
    induction lines generalizing c with
    | nil => intro _; rfl
    | cons l tl ih =>
      intro h
      have hl2 : (applyConfigLine c l).2 = false := by
        rw [applyConfigLine_snd]; exact h l (List.mem_cons_self l tl)
      have hl1 : (applyConfigLine c l).1 = c := applyConfigLine_fst_of_false c l hl2
      show List.foldl _ ((applyConfigLine c l).1, false || (applyConfigLine c l).2) tl
        = (c, false)
      rw [hl1, hl2]
      exact ih c (fun l' hm => h l' (List.mem_cons_of_mem l hm))
  · intro c file
    cases file with
    | none => intro _; rfl
    | some lines => exact fun h => (loadFold_false lines c false h).1
  · intro c0 c hv
    obtain ⟨cs, cp, cch, cmc, chd⟩ := c
    obtain ⟨hls, hlp, _, _⟩ := hv
    have e1 : ∀ d : HotspotConfig, applyConfigLine d ("ssid=".data ++ cs)
        = ({ d with ssid := cs }, true) := by
      intro d
      have hsp : splitEq ('s' :: ("sid=".data ++ cs)) = some ("ssid".data, cs) :=
        splitEq_append "ssid".data cs (by decide)
      rw [show ("ssid=".data ++ cs) = 's' :: ("sid=".data ++ cs) from rfl,
        applyConfigLine_keyval d 's' _ _ _ (by decide) hsp, if_pos rfl,
        List.take_of_length_le hls]
    have e2 : ∀ d : HotspotConfig, applyConfigLine d ("password=".data ++ cp)
        = ({ d with password := cp }, true) := by
      intro d
      have hsp : splitEq ('p' :: ("assword=".data ++ cp)) = some ("password".data, cp) :=
        splitEq_append "password".data cp (by decide)
      rw [show ("password=".data ++ cp) = 'p' :: ("assword=".data ++ cp) from rfl,
        applyConfigLine_keyval d 'p' _ _ _ (by decide) hsp,
        if_neg (by decide), if_pos rfl, List.take_of_length_le hlp]
    have e3 : ∀ d : HotspotConfig, applyConfigLine d ("channel=".data ++ intDec cch)
        = ({ d with channel := cch }, true) := by
      intro d
      have hsp : splitEq ('c' :: ("hannel=".data ++ intDec cch))
          = some ("channel".data, intDec cch) :=
        splitEq_append "channel".data (intDec cch) (by decide)
      rw [show ("channel=".data ++ intDec cch) = 'c' :: ("hannel=".data ++ intDec cch)
          from rfl,
        applyConfigLine_keyval d 'c' _ _ _ (by decide) hsp,
        if_neg (by decide), if_neg (by decide), if_pos rfl, atoi_intDec]
    have e4 : ∀ d : HotspotConfig, applyConfigLine d ("max_clients=".data ++ intDec cmc)
        = ({ d with max_clients := cmc }, true) := by
      intro d
      have hsp : splitEq ('m' :: ("ax_clients=".data ++ intDec cmc))
          = some ("max_clients".data, intDec cmc) :=
        splitEq_append "max_clients".data (intDec cmc) (by decide)
      rw [show ("max_clients=".data ++ intDec cmc)
          = 'm' :: ("ax_clients=".data ++ intDec cmc) from rfl,
        applyConfigLine_keyval d 'm' _ _ _ (by decide) hsp,
        if_neg (by decide), if_neg (by decide), if_neg (by decide), if_pos rfl,
        atoi_intDec]
    have e5 : ∀ d : HotspotConfig,
        applyConfigLine d ("hidden=".data ++ (if chd then "1".data else "0".data))
          = ({ d with hidden := chd }, true) := by
      intro d
      cases chd with
      | true =>
        have hsp : splitEq ('h' :: "idden=1".data) = some ("hidden".data, "1".data) := by
          decide
        rw [if_pos rfl,
          show ("hidden=".data ++ "1".data) = 'h' :: "idden=1".data from rfl,
          applyConfigLine_keyval d 'h' _ _ _ (by decide) hsp,
          if_neg (by decide), if_neg (by decide), if_neg (by decide), if_neg (by decide),
          if_pos rfl, show decide (atoi "1".data ≠ 0) = true by decide]
      | false =>
        have hsp : splitEq ('h' :: "idden=0".data) = some ("hidden".data, "0".data) := by
          decide
        rw [if_neg (by decide),
          show ("hidden=".data ++ "0".data) = 'h' :: "idden=0".data from rfl,
          applyConfigLine_keyval d 'h' _ _ _ (by decide) hsp,
          if_neg (by decide), if_neg (by decide), if_neg (by decide), if_neg (by decide),
          if_pos rfl, show decide (atoi "0".data ≠ 0) = false by decide]
    show List.foldl _ (c0, false) _ = _
    simp only [hotspot_save_config, List.foldl_cons, List.foldl_nil, e1, e2, e3, e4, e5,
      Bool.false_or, Bool.or_true]

/-- Closed instance of `config_persistence_roundtrip`: a concrete valid
config (with an `=` inside the SSID) round-trips over the defaults, and a
comment-only file loads nothing. -/
theorem config_persistence_roundtrip_witness :
    hotspot_load_config hotspot_default_config
      (some (hotspot_save_config ⟨"My Net=5".data, "hunter2pass".data, -3, 17, true⟩))
      = (⟨"My Net=5".data, "hunter2pass".data, -3, 17, true⟩, true) ∧
    hotspot_load_config hotspot_default_config (some ["# comment".data, "noequals".data])
      = (hotspot_default_config, false) :=
  ⟨config_persistence_roundtrip.2.2.2 hotspot_default_config
      ⟨"My Net=5".data, "hunter2pass".data, -3, 17, true⟩
      ⟨by decide, by decide, by decide, by decide⟩,
   config_persistence_roundtrip.2.1 hotspot_default_config
      ["# comment".data, "noequals".data] (by decide)⟩

/-! ## Claim C7 -/

/-- The check `net_check_ap_support` is the disjunction of the two per-block tests. -/
theorem net_check_ap_support_eq (comb modes : List Char) :
    net_check_ap_support comb modes = (blockBothCaps comb || blockBothCaps modes) := by
  by_cases hc : blockBothCaps comb = true
  · have hne : comb ≠ [] := by
      intro he; subst he; exact absurd hc (by decide)
    have hie : comb.isEmpty = false := by
      cases comb with
      | nil => exact absurd rfl hne
      | cons a t => rfl
    simp [net_check_ap_support, hc, hie]
  · have hcf : blockBothCaps comb = false := by
      cases hb : blockBothCaps comb
      · rfl
      · exact absurd hb hc
    by_cases hm : blockBothCaps modes = true
    · have hne : modes ≠ [] := by
        intro he; subst he; exact absurd hm (by decide)
      have hie : modes.isEmpty = false := by
        cases modes with
        | nil => exact absurd rfl hne
        | cons a t => rfl
      simp [net_check_ap_support, hcf, hm, hie]
    · have hmf : blockBothCaps modes = false := by
        cases hb : blockBothCaps modes
        · rfl
        · exact absurd hb hm
      simp [net_check_ap_support, hcf, hmf]

/-- C7: concurrency detection reports support exactly when a single
capability block (the interface-combinations grab or the supported-modes
grab) contains both "managed" and "AP" together; capabilities spread over
disjoint blocks, or absent, yield false. -/
theorem ap_support_single_block (comb modes : List Char) :
    net_check_ap_support comb modes = true ↔
      ((strContains comb "managed".data = true ∧ strContains comb "AP".data = true) ∨
       (strContains modes "managed".data = true ∧ strContains modes "AP".data = true)) := by
  rw [net_check_ap_support_eq]
  simp [blockBothCaps]

/-! ## Claim C9 -/

/-- C9: client enumeration equals, in order, the per-line parses of the lease
file capped at the client limit (so malformed lines are skipped and file
order is kept); on the two example lines of the spec it returns exactly the two
entries in file order with the `*` hostname replaced by "(unknown)"; and a
line with fewer than three fields yields no entry. -/
theorem lease_parsing_spec :
    (∀ (junkHost : List Char) (lines : List (List Char)) (maxClients : Nat),
      net_get_connected_clients junkHost lines maxClients
        = (lines.filterMap (leaseLineClient junkHost)).take maxClients) ∧
    (∀ junkHost : List Char,
      net_get_connected_clients junkHost [leaseLine1, leaseLine2] 64
        = [⟨"aa:bb:cc:dd:ee:ff".data, "192.168.12.10".data, "phone".data⟩,
           ⟨"11:22:33:44:55:66".data, "192.168.12.11".data, "(unknown)".data⟩]) ∧
    (∀ junkHost : List Char,
      leaseLineClient junkHost "0 aa:bb:cc:dd:ee:ff".data = none) := by
  refine ⟨?_, fun junkHost => rfl, fun junkHost => rfl⟩
  intro junkHost lines
  induction lines with
  | nil => intro maxClients; cases maxClients <;> rfl
  | cons l tl ih =>
    intro maxClients
    cases maxClients with
    | zero => rfl
    | succ m =>
      cases hc : leaseLineClient junkHost l with
      | some cl => simp [net_get_connected_clients, hc, ih, List.filterMap_cons]
      | none => simp [net_get_connected_clients, hc, ih, List.filterMap_cons]

end HotspotModel
